import Mathlib

/-!
Verification development for the UniversalFingerprint Arduino library.

This file gives a shallow embedding of the library's core logic —
the slot occupancy cache, the capacity auto-detection and the vendor
result-code normalization — and proves or refutes the specification's
claims about it.

The device (an Adafruit-driver fingerprint module behind a serial
link) is modelled as an explicit stream of vendor response codes
(`List Nat`): every device round-trip consumes exactly one response
from the stream.  "No device interaction" is therefore "the stream is
returned unchanged".  `uint16_t` quantities are modelled as `Nat` with
an explicit `% 65536` where the source can overflow.
-/

namespace UF

/-! ### Vendor status codes

Constants of the external Adafruit_Fingerprint library (the library is
included by the source, not part of this repository); values are the
library's published ones. -/

def FINGERPRINT_OK : Nat := 0x00
def FINGERPRINT_PACKETRECIEVEERR : Nat := 0x01
def FINGERPRINT_NOFINGER : Nat := 0x02
def FINGERPRINT_IMAGEFAIL : Nat := 0x03
def FINGERPRINT_IMAGEMESS : Nat := 0x06
def FINGERPRINT_FEATUREFAIL : Nat := 0x07
def FINGERPRINT_NOMATCH : Nat := 0x08
def FINGERPRINT_NOTFOUND : Nat := 0x09
def FINGERPRINT_ENROLLMISMATCH : Nat := 0x0A
def FINGERPRINT_BADLOCATION : Nat := 0x0B
def FINGERPRINT_DBRANGEFAIL : Nat := 0x0C
def FINGERPRINT_UPLOADFEATUREFAIL : Nat := 0x0D
def FINGERPRINT_PACKETRESPONSEFAIL : Nat := 0x0E
def FINGERPRINT_UPLOADFAIL : Nat := 0x0F
def FINGERPRINT_DELETEFAIL : Nat := 0x10
def FINGERPRINT_DBCLEARFAIL : Nat := 0x11
def FINGERPRINT_PASSFAIL : Nat := 0x13
def FINGERPRINT_INVALIDIMAGE : Nat := 0x15
def FINGERPRINT_FLASHERR : Nat := 0x18
def FINGERPRINT_INVALIDREG : Nat := 0x1A

/-! ### Library types (utility/UF_Common.h) -/

/-- `enum UF_ErrorCode` of UF_Common.h. -/
inductive UF_ErrorCode where
  | UF_OK
  | UF_ERROR_COMM
  | UF_ERROR_NO_SENSOR
  | UF_ERROR_INVALID_ID
  | UF_ERROR_SLOT_FULL
  | UF_ERROR_TIMEOUT
  | UF_ERROR_SENSOR_BUSY
  | UF_ERROR_PACKET
  | UF_ERROR_NOT_ENROLLED
  | UF_ERROR_NO_FINGER
  | UF_ERROR_IMAGE_MESS
  | UF_ERROR_FEATURE_FAIL
  | UF_ERROR_IMAGE_FAIL
  | UF_ERROR_DUPLICATE_ID
  | UF_ERROR_NOT_SUPPORTED
  | UF_ERROR_INVALID_PARAM
  deriving DecidableEq, Repr

open UF_ErrorCode

/-- `enum UF_SensorType` of UF_Common.h. -/
inductive UF_SensorType where
  | AS608
  | R307
  | GT511C3
  | ZFM60
  | ZFM20
  | AUTO
  deriving DecidableEq, Repr

open UF_SensorType

/-- `struct UF_SensorInfo` of UF_Common.h (strings dropped to enum + numbers). -/
structure UF_SensorInfo where
  type : UF_SensorType
  capacity : Nat
  packetSize : Nat
  defaultBaud : Nat
  address : Nat
  hasLED : Bool
  hasTouchSensor : Bool
  deriving DecidableEq, Repr

/-- `struct UF_DatabaseStats` of UF_Common.h.  The `usagePercentage`
float field is display-only and omitted (floating point). -/
structure UF_DatabaseStats where
  totalSlots : Nat
  occupiedSlots : Nat
  freeSlots : Nat
  firstFreeSlot : Nat
  lastFreeSlot : Nat
  deriving DecidableEq, Repr

/-- The private state of a `UniversalFingerprint` object
(UniversalFingerprint.h).  `_slotOccupancy` is the occupancy array
(`nullptr` modelled as the empty pre-allocation list; all operations
below are exercised on states where it has been allocated). -/
structure UFState where
  sensorType : UF_SensorType
  capacity : Nat
  enrolledCount : Nat
  initialized : Bool
  databaseScanned : Bool
  slotOccupancy : List Bool
  deriving DecidableEq, Repr

/-- `SENSOR_DB` of UniversalFingerprint.cpp (model names and vendor
strings dropped; the AUTO terminator row kept). -/
def SENSOR_DB : List UF_SensorInfo :=
  [ ⟨AS608, 162, 128, 57600, 1, true, true⟩,
    ⟨R307, 1000, 256, 57600, 1, true, true⟩,
    ⟨GT511C3, 200, 512, 9600, 1, false, false⟩,
    ⟨ZFM60, 300, 128, 57600, 1, true, true⟩,
    ⟨ZFM20, 256, 128, 57600, 1, false, true⟩,
    ⟨AUTO, 0, 0, 0, 0, false, false⟩ ]

/-- The `for (info : SENSOR_DB) if (info.type == t) { capacity = info.capacity; break; }`
lookup used by the constructors and by `begin`. -/
def dbCapacityFor (t : UF_SensorType) : Nat :=
  match SENSOR_DB.find? (fun info => info.type = t) with
  | some info => info.capacity
  | none => 0

/-- Constructor `UniversalFingerprint::UniversalFingerprint`:
everything zeroed; capacity pre-resolved from `SENSOR_DB` when the
sensor type is not AUTO. -/
def mkUniversalFingerprint (t : UF_SensorType) : UFState :=
  { sensorType := t
    capacity := if t ≠ AUTO then dbCapacityFor t else 0
    enrolledCount := 0
    initialized := false
    databaseScanned := false
    slotOccupancy := [] }

/-! ### Device response stream -/

/-- One device round-trip: consume the head of the response stream.
An exhausted stream answers like a silent device (packet receive
error); the claims only use sufficiently long streams. -/
def devPop (dev : List Nat) : Nat × List Nat :=
  (dev.headD FINGERPRINT_PACKETRECIEVEERR, dev.tail)

/-! ### Result translator -/

/-- `UniversalFingerprint::_convertAdafruitError`, the switch rendered
as an equality chain in source order; the final branch is the
`default:` case. -/
def convertAdafruitError (error : Nat) : UF_ErrorCode :=
  if error = FINGERPRINT_OK then UF_OK
  else if error = FINGERPRINT_NOFINGER then UF_ERROR_NO_FINGER
  else if error = FINGERPRINT_IMAGEFAIL then UF_ERROR_IMAGE_FAIL
  else if error = FINGERPRINT_IMAGEMESS then UF_ERROR_IMAGE_MESS
  else if error = FINGERPRINT_PACKETRECIEVEERR then UF_ERROR_COMM
  else if error = FINGERPRINT_FEATUREFAIL then UF_ERROR_FEATURE_FAIL
  else if error = FINGERPRINT_INVALIDIMAGE then UF_ERROR_IMAGE_FAIL
  else if error = FINGERPRINT_ENROLLMISMATCH then UF_ERROR_FEATURE_FAIL
  else if error = FINGERPRINT_BADLOCATION then UF_ERROR_INVALID_ID
  else if error = FINGERPRINT_DBRANGEFAIL then UF_ERROR_INVALID_ID
  else if error = FINGERPRINT_UPLOADFEATUREFAIL then UF_ERROR_FEATURE_FAIL
  else if error = FINGERPRINT_PACKETRESPONSEFAIL then UF_ERROR_COMM
  else if error = FINGERPRINT_UPLOADFAIL then UF_ERROR_COMM
  else if error = FINGERPRINT_DELETEFAIL then UF_ERROR_COMM
  else if error = FINGERPRINT_DBCLEARFAIL then UF_ERROR_COMM
  else if error = FINGERPRINT_PASSFAIL then UF_ERROR_COMM
  else if error = FINGERPRINT_INVALIDREG then UF_ERROR_INVALID_PARAM
  else if error = FINGERPRINT_FLASHERR then UF_ERROR_COMM
  else UF_ERROR_COMM

/-- The vendor codes appearing as cases of the
`_convertAdafruitError` switch (its mapping table). -/
def knownAdafruitCodes : List Nat :=
  [ FINGERPRINT_OK, FINGERPRINT_NOFINGER, FINGERPRINT_IMAGEFAIL,
    FINGERPRINT_IMAGEMESS, FINGERPRINT_PACKETRECIEVEERR,
    FINGERPRINT_FEATUREFAIL, FINGERPRINT_INVALIDIMAGE,
    FINGERPRINT_ENROLLMISMATCH, FINGERPRINT_BADLOCATION,
    FINGERPRINT_DBRANGEFAIL, FINGERPRINT_UPLOADFEATUREFAIL,
    FINGERPRINT_PACKETRESPONSEFAIL, FINGERPRINT_UPLOADFAIL,
    FINGERPRINT_DELETEFAIL, FINGERPRINT_DBCLEARFAIL,
    FINGERPRINT_PASSFAIL, FINGERPRINT_INVALIDREG, FINGERPRINT_FLASHERR ]

/-! ### Slot occupancy cache queries (UniversalFingerprint.cpp) -/

/-- `UniversalFingerprint::_validateID`. -/
def validateID (s : UFState) (id : Nat) : Prop :=
  1 ≤ id ∧ id ≤ s.capacity

instance (s : UFState) (id : Nat) : Decidable (validateID s id) := by
  unfold validateID; infer_instance

/-- `UniversalFingerprint::isSlotOccupied`. -/
def isSlotOccupied (s : UFState) (id : Nat) : Bool :=
  if s.databaseScanned = false ∨ id < 1 ∨ id > s.capacity then false
  else s.slotOccupancy.getD (id - 1) false

/-- The `for (i = start-1; i < capacity; i++)` body of
`findEmptySlot`, with the remaining iteration count made explicit
(`n = capacity - i` at entry). -/
def findFromAux (occ : List Bool) : Nat → Nat → Nat
  | _, 0 => 0
  | i, n + 1 =>
    if occ.getD i false = false then i + 1 else findFromAux occ (i + 1) n

/-- `UniversalFingerprint::findEmptySlot`. -/
def findEmptySlot (s : UFState) (start : Nat) : Nat :=
  if s.databaseScanned = false ∨ start < 1 ∨ start > s.capacity then 0
  else findFromAux s.slotOccupancy (start - 1) (s.capacity - (start - 1))

/-- The `for (i = capacity; i > 0; i--)` body of `findLastEmptySlot`. -/
def findLastFromAux (occ : List Bool) : Nat → Nat
  | 0 => 0
  | i + 1 => if occ.getD i false = false then i + 1 else findLastFromAux occ i

/-- `UniversalFingerprint::findLastEmptySlot`. -/
def findLastEmptySlot (s : UFState) : Nat :=
  if s.databaseScanned = false then 0
  else findLastFromAux s.slotOccupancy s.capacity

/-- `UniversalFingerprint::_updateSlotOccupancy` (the null check of
`_slotOccupancy` corresponds to the array being allocated). -/
def updateSlotOccupancy (s : UFState) (id : Nat) (occupied : Bool) : UFState :=
  if 1 ≤ id ∧ id ≤ s.capacity then
    { s with slotOccupancy := s.slotOccupancy.set (id - 1) occupied
             databaseScanned := true }
  else s

/-! ### Database scan -/

/-- The scan loop of `scanDatabase`: probe slots `1..n` in order with
`getTemplateCount`, record `result == FINGERPRINT_OK` per slot. -/
def scanSlots : Nat → List Nat → List Bool × List Nat
  | 0, dev => ([], dev)
  | n + 1, dev =>
    let r := devPop dev
    let rest := scanSlots n r.2
    (decide (r.1 = FINGERPRINT_OK) :: rest.1, rest.2)

/-- `UniversalFingerprint::scanDatabase`.  Returns the enrolled count,
or `-1` when the object is not initialized (the `_slotOccupancy ==
nullptr` case is the same guard in the modelled states). -/
def scanDatabase (s : UFState) (dev : List Nat) : Int × UFState × List Nat :=
  if s.initialized = false then (-1, s, dev)
  else
    let r := scanSlots s.capacity dev
    let count := r.1.countP (fun b => b)
    ((count : Int),
     { s with slotOccupancy := r.1, enrolledCount := count, databaseScanned := true },
     r.2)

/-- `UniversalFingerprint::getDatabaseStats` (lazy rescan when the
database has not been scanned; the scan's return value is not
checked, exactly as in the source). -/
def getDatabaseStats (s : UFState) (dev : List Nat) :
    UF_DatabaseStats × UFState × List Nat :=
  let sd := if s.databaseScanned = false then
              let r := scanDatabase s dev
              (r.2.1, r.2.2)
            else (s, dev)
  let s1 := sd.1
  ({ totalSlots := s1.capacity
     occupiedSlots := s1.enrolledCount
     freeSlots := s1.capacity - s1.enrolledCount
     firstFreeSlot := findEmptySlot s1 1
     lastFreeSlot := findLastEmptySlot s1 }, s1, sd.2)

/-! ### Enrollment -/

/-- The second-capture wait loop of `_enrollInternal`: `getImage` is
retried while it answers `FINGERPRINT_NOFINGER`; a non-NOFINGER answer
leaves the loop with that result, and exhausting the stream models the
10-second timeout (the loop then exits with its last NOFINGER result
and the code falls through to `image2Tz(2)`). -/
def captureSecondLoop : List Nat → Option Nat × List Nat
  | [] => (none, [])
  | r :: rest =>
    if r = FINGERPRINT_NOFINGER then captureSecondLoop rest else (some r, rest)

/-- The tail of `_enrollInternal` after the second capture:
`image2Tz(2)`, `createModel`, `storeModel(id)`. -/
def enrollStoreSteps (_id : Nat) (dev : List Nat) : UF_ErrorCode × List Nat :=
  let r4 := devPop dev
  if r4.1 ≠ FINGERPRINT_OK then (convertAdafruitError r4.1, r4.2)
  else
    let r5 := devPop r4.2
    if r5.1 ≠ FINGERPRINT_OK then (convertAdafruitError r5.1, r5.2)
    else
      let r6 := devPop r5.2
      (convertAdafruitError r6.1, r6.2)

/-- `UniversalFingerprint::_enrollInternal`: first capture
(`getImage`, `image2Tz(1)`), the second-capture wait loop, then
`image2Tz(2)`, `createModel`, `storeModel(id)`.  Touches only the
device, never the cache. -/
def enrollInternal (id : Nat) (dev : List Nat) : UF_ErrorCode × List Nat :=
  let r1 := devPop dev
  if r1.1 ≠ FINGERPRINT_OK then (convertAdafruitError r1.1, r1.2)
  else
    let r2 := devPop r1.2
    if r2.1 ≠ FINGERPRINT_OK then (convertAdafruitError r2.1, r2.2)
    else
      let l := captureSecondLoop r2.2
      match l.1 with
      | some r3 =>
        if r3 ≠ FINGERPRINT_OK then (convertAdafruitError r3, l.2)
        else enrollStoreSteps id l.2
      | none => enrollStoreSteps id l.2

/-- The cache update of `enroll` on success:
`_updateSlotOccupancy(id, true); _enrolledCount++;` (the increment is
a `uint16_t` increment). -/
def enrollApply (s : UFState) (id : Nat) : UFState :=
  let s1 := updateSlotOccupancy s id true
  { s1 with enrolledCount := (s1.enrolledCount + 1) % 65536 }

/-- `UniversalFingerprint::enroll`.  An out-of-bounds `numScans` is
clamped to the default 2 (and, like the source, the value is not used
afterwards: `_enrollInternal` always performs exactly two captures). -/
def enroll (s : UFState) (id0 : Nat) (numScans : Nat) (dev : List Nat) :
    UF_ErrorCode × UFState × List Nat :=
  if s.initialized = false then (UF_ERROR_NO_SENSOR, s, dev)
  else
    let _numScansEff := if numScans < 1 ∨ numScans > 4 then 2 else numScans
    let id := if id0 = 0 then findEmptySlot s 1 else id0
    if id = 0 then (UF_ERROR_SLOT_FULL, s, dev)
    else if ¬ validateID s id then (UF_ERROR_INVALID_ID, s, dev)
    else if s.databaseScanned = true ∧ s.slotOccupancy.getD (id - 1) false = true then
      (UF_ERROR_DUPLICATE_ID, s, dev)
    else
      let r := enrollInternal id dev
      if r.1 = UF_OK then (UF_OK, enrollApply s id, r.2)
      else (r.1, s, r.2)

/-- The cache update of `deleteTemplate` on success:
`_updateSlotOccupancy(id, false)` and the guarded decrement of
`_enrolledCount`. -/
def deleteApply (s : UFState) (id : Nat) : UFState :=
  let s1 := updateSlotOccupancy s id false
  { s1 with enrolledCount :=
      if s1.enrolledCount > 0 then s1.enrolledCount - 1 else s1.enrolledCount }

/-- `UniversalFingerprint::deleteTemplate` (one `deleteModel(id)`
round-trip). -/
def deleteTemplate (s : UFState) (id : Nat) (dev : List Nat) :
    UF_ErrorCode × UFState × List Nat :=
  if s.initialized = false then (UF_ERROR_NO_SENSOR, s, dev)
  else if ¬ validateID s id then (UF_ERROR_INVALID_ID, s, dev)
  else
    let r := devPop dev
    if r.1 = FINGERPRINT_OK then (UF_OK, deleteApply s id, r.2)
    else (convertAdafruitError r.1, s, r.2)

/-- The `deleteModel` loop of `clearDatabase` over slots `1..n`:
`success` stays true only if every answer is `FINGERPRINT_OK` or
`FINGERPRINT_BADLOCATION`. -/
def clearLoop : Nat → List Nat → Bool × List Nat
  | 0, dev => (true, dev)
  | n + 1, dev =>
    let r := devPop dev
    let ok := decide (r.1 = FINGERPRINT_OK) || decide (r.1 = FINGERPRINT_BADLOCATION)
    let rest := clearLoop n r.2
    (ok && rest.1, rest.2)

/-- `UniversalFingerprint::clearDatabase`.  Note that the cache reset
(occupancy zeroed, count zeroed, scanned flag cleared) happens whether
or not the delete loop succeeded. -/
def clearDatabase (s : UFState) (dev : List Nat) :
    UF_ErrorCode × UFState × List Nat :=
  if s.initialized = false then (UF_ERROR_NO_SENSOR, s, dev)
  else
    let r := clearLoop s.capacity dev
    let s1 := { s with slotOccupancy := List.replicate s.capacity false
                       enrolledCount := 0
                       databaseScanned := false }
    (if r.1 then UF_OK else UF_ERROR_COMM, s1, r.2)

/-- `UniversalFingerprint::isFingerPresent` (one `getImage`
round-trip; true on `FINGERPRINT_OK` or `FINGERPRINT_NOFINGER`). -/
def isFingerPresent (s : UFState) (dev : List Nat) : Bool × List Nat :=
  if s.initialized = false then (false, dev)
  else
    let r := devPop dev
    (decide (r.1 = FINGERPRINT_OK) || decide (r.1 = FINGERPRINT_NOFINGER), r.2)

/-! ### Capability detector (utility/UF_SensorDetector.cpp)

The probe primitive `_testSlot(id)` is
`getTemplateCount(id) == FINGERPRINT_OK`; it is modelled as a
function `probe : Nat → Bool` from slot index to accept/reject. -/

/-- `UF_SensorDetector::detectByParameters`: reads the parameter
register; both its branches give up, so it always reports AUTO. -/
def detectByParameters (param : Nat) : UF_SensorType :=
  if param = 0 then AUTO else AUTO

/-- `UF_SensorDetector::detectByCapacity`: probe the largest slot of
each cataloged profile, capacities in descending order. -/
def detectByCapacity (probe : Nat → Bool) : UF_SensorType :=
  if probe 1000 then R307
  else if probe 300 then ZFM60
  else if probe 256 then ZFM20
  else if probe 200 then GT511C3
  else if probe 162 then AS608
  else AUTO

/-- The capacity switch at the end of `UF_SensorDetector::detect`
(the `default:` branch falls back to the AS608 capacity). -/
def detectedCapacityFor : UF_SensorType → Nat
  | AS608 => 162
  | R307 => 1000
  | GT511C3 => 200
  | ZFM60 => 300
  | ZFM20 => 256
  | AUTO => 162

/-- `UF_SensorDetector::detect`: parameter-based detection first (it
never matches), then capacity-based detection; the pair is the
detected type and `_detectedCapacity`. -/
def detect (param : Nat) (probe : Nat → Bool) : UF_SensorType × Nat :=
  let t0 := detectByParameters param
  let t := if t0 = AUTO then detectByCapacity probe else t0
  (t, detectedCapacityFor t)

/-! ### begin -/

/-- The inputs `begin` reads from the outside world: whether the
Adafruit driver opens, the `verifyPassword` answer, the parameter
register value, the detection probe, and the response stream for the
database scan attempt. -/
structure BeginEnv where
  fingerBeginOk : Bool
  verifyPasswordCode : Nat
  getParametersValue : Nat
  probe : Nat → Bool
  scanResponses : List Nat

/-- `UniversalFingerprint::begin`: open serial (no-op here), driver
`begin`, `verifyPassword`, auto-detection with AS608 fallback,
capacity lookup in `SENSOR_DB` with a second AS608/162 fallback,
occupancy allocation (all false), then a `scanDatabase()` call — which
is issued while `_initialized` is still false — and finally
`_initialized = true`. -/
def begin (s : UFState) (e : BeginEnv) : Bool × UFState :=
  if e.fingerBeginOk = false then (false, s)
  else if e.verifyPasswordCode ≠ FINGERPRINT_OK then (false, s)
  else
    let t1 := if s.sensorType = AUTO then
                let d := (detect e.getParametersValue e.probe).1
                if d = AUTO then AS608 else d
              else s.sensorType
    let cap1 := dbCapacityFor t1
    let t2 := if cap1 = 0 then AS608 else t1
    let cap2 := if cap1 = 0 then 162 else cap1
    let s1 := { s with sensorType := t2
                       capacity := cap2
                       slotOccupancy := List.replicate cap2 false }
    let r := scanDatabase s1 e.scanResponses
    (true, { r.2.1 with initialized := true })

/-! ### Operation traces over the facade

For the cache-consistency claims, a trace is a list of facade
operations, each carrying the device responses it will consume. -/

/-- One facade mutating operation together with its device responses. -/
inductive Op where
  | enrollOp (id numScans : Nat) (dev : List Nat)
  | deleteOp (id : Nat) (dev : List Nat)
  | clearOp (dev : List Nat)
  deriving DecidableEq, Repr

/-- Run one operation; keep its reported outcome and the new state. -/
def applyOp (s : UFState) : Op → UF_ErrorCode × UFState
  | Op.enrollOp id n dev => ((enroll s id n dev).1, (enroll s id n dev).2.1)
  | Op.deleteOp id dev => ((deleteTemplate s id dev).1, (deleteTemplate s id dev).2.1)
  | Op.clearOp dev => ((clearDatabase s dev).1, (clearDatabase s dev).2.1)

/-- The operation reports success, and (the proviso the C1
counterexample forces) a delete targets a slot the cache reports
occupied. -/
def goodStep (s : UFState) (op : Op) : Bool :=
  decide ((applyOp s op).1 = UF_OK) &&
  (match op with
   | Op.deleteOp id _ => isSlotOccupied s id
   | _ => true)

/-- Every step of the trace is a `goodStep` of the state it runs in. -/
def goodTrace : UFState → List Op → Bool
  | _, [] => true
  | s, op :: rest => goodStep s op && goodTrace (applyOp s op).2 rest

/-- The states after each step of the trace. -/
def statesAlong : UFState → List Op → List UFState
  | _, [] => []
  | s, op :: rest => (applyOp s op).2 :: statesAlong (applyOp s op).2 rest

/-- Number of true entries of an occupancy array. -/
def countTrue (l : List Bool) : Nat := l.countP (fun b => b)

/-- Number of slot ids in `[1, capacity]` that `isSlotOccupied`
reports occupied. -/
def countOccupied (s : UFState) : Nat :=
  (List.range s.capacity).countP (fun i => isSlotOccupied s (i + 1))

/-- Well-formedness of a facade state: the occupancy array has
`capacity` entries, the capacity fits `uint16_t`, the enrolled count
agrees with the array, and an unscanned cache is all-empty.  This
holds for every state `begin` produces and is preserved by successful
operations (with the delete proviso). -/
def WF (s : UFState) : Prop :=
  s.slotOccupancy.length = s.capacity ∧
  s.capacity < 65536 ∧
  s.enrolledCount = countTrue s.slotOccupancy ∧
  (s.databaseScanned = false → countTrue s.slotOccupancy = 0)

instance (s : UFState) : Decidable (WF s) := by
  unfold WF; infer_instance

/-! ### Spec-side definitions (for refinement comparisons) -/

/-- The ascending list of ids `k, k+1, ..., k+n-1`. -/
def slotIdsFrom : Nat → Nat → List Nat
  | _, 0 => []
  | k, n + 1 => k :: slotIdsFrom (k + 1) n

/-- Claim C5's words, verbatim: the smallest id `≥ k` in
`[1, capacity]` whose occupancy entry is false, and `0` when `k` is
outside `[1, capacity]` or no empty slot exists at or after `k`
(no condition on the scanned flag). -/
def claimFindEmptySlot (s : UFState) (k : Nat) : Nat :=
  if k < 1 ∨ k > s.capacity then 0
  else
    match (slotIdsFrom k (s.capacity + 1 - k)).find?
        (fun id => !(s.slotOccupancy.getD (id - 1) false)) with
    | some id => id
    | none => 0

/-- The amended C5: as `claimFindEmptySlot`, but additionally `0`
whenever the database has not been scanned. -/
def specFindEmptySlot (s : UFState) (k : Nat) : Nat :=
  if s.databaseScanned = false ∨ k < 1 ∨ k > s.capacity then 0
  else
    match (slotIdsFrom k (s.capacity + 1 - k)).find?
        (fun id => !(s.slotOccupancy.getD (id - 1) false)) with
    | some id => id
    | none => 0

/-- The profile catalog in the order `detectByCapacity` probes it:
each profile with its largest slot index (= its capacity). -/
def detectionCatalog : List (UF_SensorType × Nat) :=
  [(R307, 1000), (ZFM60, 300), (ZFM20, 256), (GT511C3, 200), (AS608, 162)]

/-- The spec's words for detection: the first cataloged profile whose
largest slot index the probe accepts. -/
def catalogFirstMatch (probe : Nat → Bool) : UF_SensorType :=
  match detectionCatalog.find? (fun p => probe p.2) with
  | some p => p.1
  | none => AUTO

/-! ### Concrete states used by several claims -/

/-- A benign environment for `begin`: driver opens, password accepted,
probe rejects everything (irrelevant for a non-AUTO constructor),
empty scan stream (the scan is a no-op anyway). -/
def demoEnv : BeginEnv :=
  { fingerBeginOk := true
    verifyPasswordCode := FINGERPRINT_OK
    getParametersValue := 0
    probe := fun _ => false
    scanResponses := [] }

/-- The facade state right after a successful
`UniversalFingerprint(AS608); begin()` sequence. -/
def postBeginState : UFState := (begin (mkUniversalFingerprint AS608) demoEnv).2

/-! ### Helper lemmas about occupancy arrays -/

lemma getD_set_ne (l : List Bool) (i j : Nat) (b : Bool) (h : j ≠ i) :
    (l.set i b).getD j false = l.getD j false := by
  simp [List.getD_eq_getElem?_getD, List.getElem?_set_ne (Ne.symm h)]

lemma countTrue_nil : countTrue [] = 0 := rfl

lemma countTrue_cons (a : Bool) (t : List Bool) :
    countTrue (a :: t) = countTrue t + if a then 1 else 0 := by
  simp [countTrue, List.countP_cons]

lemma countTrue_set_true (l : List Bool) : ∀ i : Nat, i < l.length →
    l.getD i false = false → countTrue (l.set i true) = countTrue l + 1 := by
  induction l with
  | nil => intro i h _; simp at h
  | cons a t ih =>
    intro i h hget
    cases i with
    | zero =>
      simp at hget
      simp [List.set, countTrue_cons, hget]
    | succ i =>
      simp at h
      rw [List.getD_cons_succ] at hget
      simp only [List.set, countTrue_cons]
      rw [ih i h hget]
      omega

lemma countTrue_set_false (l : List Bool) : ∀ i : Nat, i < l.length →
    l.getD i false = true → countTrue l = countTrue (l.set i false) + 1 := by
  induction l with
  | nil => intro i h _; simp at h
  | cons a t ih =>
    intro i h hget
    cases i with
    | zero =>
      simp at hget
      simp [List.set, countTrue_cons, hget]
    | succ i =>
      simp at h
      rw [List.getD_cons_succ] at hget
      simp only [List.set, countTrue_cons]
      rw [ih i h hget]
      omega

lemma countTrue_le_length (l : List Bool) : countTrue l ≤ l.length :=
  List.countP_le_length _

lemma countTrue_zero_getD (l : List Bool) (h : countTrue l = 0) (i : Nat) :
    l.getD i false = false := by
  unfold countTrue at h
  rw [List.countP_eq_zero] at h
  by_cases hi : i < l.length
  · have hmem : l[i] ∈ l := List.getElem_mem hi
    have := h _ hmem
    simp [List.getD_eq_getElem?_getD, List.getElem?_eq_getElem hi]
    simpa using this
  · simp [List.getD_eq_getElem?_getD, List.getElem?_eq_none (by omega : l.length ≤ i)]

lemma countTrue_replicate_false (n : Nat) :
    countTrue (List.replicate n false) = 0 := by
  unfold countTrue
  rw [List.countP_eq_zero]
  intro a ha
  simp [List.eq_of_mem_replicate ha]

lemma countP_range_getD (l : List Bool) :
    (List.range l.length).countP (fun i => l.getD i false) = countTrue l := by
  induction l with
  | nil => simp [countTrue]
  | cons a t ih =>
    rw [List.length_cons, List.range_succ_eq_map, List.countP_cons]
    rw [List.countP_map]
    have hcomp :
        (List.range t.length).countP
            ((fun i => (a :: t).getD i false) ∘ Nat.succ) =
          (List.range t.length).countP (fun i => t.getD i false) := by
      apply List.countP_congr
      intro x _
      simp [Function.comp]
    rw [hcomp, ih, countTrue_cons]
    simp

lemma countOccupied_eq_countTrue (s : UFState)
    (hlen : s.slotOccupancy.length = s.capacity)
    (hscan : s.databaseScanned = true) :
    countOccupied s = countTrue s.slotOccupancy := by
  unfold countOccupied
  have hcg : (List.range s.capacity).countP (fun i => isSlotOccupied s (i + 1)) =
      (List.range s.capacity).countP (fun i => s.slotOccupancy.getD i false) := by
    apply List.countP_congr
    intro i hi
    rw [List.mem_range] at hi
    unfold isSlotOccupied
    rw [if_neg (by simp [hscan]; omega)]
    simp
  rw [hcg, ← hlen, countP_range_getD]

lemma countOccupied_unscanned (s : UFState) (hscan : s.databaseScanned = false) :
    countOccupied s = 0 := by
  unfold countOccupied
  rw [List.countP_eq_zero]
  intro i _
  simp [isSlotOccupied, hscan]

lemma WF_count_eq (s : UFState) (hwf : WF s) :
    s.enrolledCount = countOccupied s := by
  obtain ⟨hlen, _, hcount, hun⟩ := hwf
  cases hscan : s.databaseScanned with
  | false => rw [countOccupied_unscanned s hscan, hcount, hun hscan]
  | true => rw [countOccupied_eq_countTrue s hlen hscan, hcount]

/-! ### Dissection lemmas for the mutating operations -/

lemma convertAdafruitError_large (c : Nat) (h : 27 ≤ c) :
    convertAdafruitError c = UF_ERROR_COMM := by
  unfold convertAdafruitError
  rw [if_neg (by unfold FINGERPRINT_OK; omega)]
  rw [if_neg (by unfold FINGERPRINT_NOFINGER; omega)]
  rw [if_neg (by unfold FINGERPRINT_IMAGEFAIL; omega)]
  rw [if_neg (by unfold FINGERPRINT_IMAGEMESS; omega)]
  rw [if_neg (by unfold FINGERPRINT_PACKETRECIEVEERR; omega)]
  rw [if_neg (by unfold FINGERPRINT_FEATUREFAIL; omega)]
  rw [if_neg (by unfold FINGERPRINT_INVALIDIMAGE; omega)]
  rw [if_neg (by unfold FINGERPRINT_ENROLLMISMATCH; omega)]
  rw [if_neg (by unfold FINGERPRINT_BADLOCATION; omega)]
  rw [if_neg (by unfold FINGERPRINT_DBRANGEFAIL; omega)]
  rw [if_neg (by unfold FINGERPRINT_UPLOADFEATUREFAIL; omega)]
  rw [if_neg (by unfold FINGERPRINT_PACKETRESPONSEFAIL; omega)]
  rw [if_neg (by unfold FINGERPRINT_UPLOADFAIL; omega)]
  rw [if_neg (by unfold FINGERPRINT_DELETEFAIL; omega)]
  rw [if_neg (by unfold FINGERPRINT_DBCLEARFAIL; omega)]
  rw [if_neg (by unfold FINGERPRINT_PASSFAIL; omega)]
  rw [if_neg (by unfold FINGERPRINT_INVALIDREG; omega)]
  rw [if_neg (by unfold FINGERPRINT_FLASHERR; omega)]

lemma convertAdafruitError_eq_ok (c : Nat) :
    convertAdafruitError c = UF_OK ↔ c = FINGERPRINT_OK := by
  by_cases hc : c < 27
  · interval_cases c <;> decide
  · rw [convertAdafruitError_large c (by omega)]
    constructor
    · intro h
      exact absurd h (by decide)
    · intro h
      unfold FINGERPRINT_OK at h
      omega

lemma convertAdafruitError_unknown (c : Nat) (h : c ∉ knownAdafruitCodes) :
    convertAdafruitError c = UF_ERROR_COMM := by
  by_cases hc : c < 27
  · unfold knownAdafruitCodes at h
    interval_cases c <;> first
      | exact absurd (by decide) h
      | decide
  · exact convertAdafruitError_large c (by omega)

lemma enroll_ok_cases (s : UFState) (id0 n : Nat) (dev : List Nat)
    (h : (enroll s id0 n dev).1 = UF_OK) :
    ∃ id, 1 ≤ id ∧ id ≤ s.capacity ∧
      ¬(s.databaseScanned = true ∧ s.slotOccupancy.getD (id - 1) false = true) ∧
      (enroll s id0 n dev).2.1 = enrollApply s id := by
  simp only [enroll] at h ⊢
  set id := if id0 = 0 then findEmptySlot s 1 else id0 with hid
  by_cases hinit : s.initialized = false
  · rw [if_pos hinit] at h
    simp at h
  rw [if_neg hinit] at h ⊢
  by_cases hz : id = 0
  · rw [if_pos hz] at h
    simp at h
  rw [if_neg hz] at h ⊢
  by_cases hv : validateID s id
  · rw [if_neg (not_not_intro hv)] at h ⊢
    by_cases hdup : s.databaseScanned = true ∧ s.slotOccupancy.getD (id - 1) false = true
    · rw [if_pos hdup] at h
      simp at h
    rw [if_neg hdup] at h ⊢
    by_cases hok : (enrollInternal id dev).1 = UF_OK
    · rw [if_pos hok]
      exact ⟨id, hv.1, hv.2, hdup, rfl⟩
    · rw [if_neg hok] at h
      simp at h
      exact absurd h hok
  · rw [if_pos hv] at h
    simp at h

lemma enroll_fail_state (s : UFState) (id0 n : Nat) (dev : List Nat)
    (h : (enroll s id0 n dev).1 ≠ UF_OK) :
    (enroll s id0 n dev).2.1 = s := by
  simp only [enroll] at h ⊢
  set id := if id0 = 0 then findEmptySlot s 1 else id0 with hid
  by_cases hinit : s.initialized = false
  · rw [if_pos hinit]
  · rw [if_neg hinit] at h ⊢
    by_cases hz : id = 0
    · rw [if_pos hz]
    · rw [if_neg hz] at h ⊢
      by_cases hv : validateID s id
      · rw [if_neg (not_not_intro hv)] at h ⊢
        by_cases hdup : s.databaseScanned = true ∧
            s.slotOccupancy.getD (id - 1) false = true
        · rw [if_pos hdup]
        · rw [if_neg hdup] at h ⊢
          by_cases hok : (enrollInternal id dev).1 = UF_OK
          · rw [if_pos hok] at h
            simp at h
          · rw [if_neg hok]
      · rw [if_pos hv]

lemma deleteTemplate_ok_cases (s : UFState) (id : Nat) (dev : List Nat)
    (h : (deleteTemplate s id dev).1 = UF_OK) :
    1 ≤ id ∧ id ≤ s.capacity ∧
      (deleteTemplate s id dev).2.1 = deleteApply s id := by
  simp only [deleteTemplate] at h ⊢
  by_cases hinit : s.initialized = false
  · rw [if_pos hinit] at h
    simp at h
  rw [if_neg hinit] at h ⊢
  by_cases hv : validateID s id
  · rw [if_neg (not_not_intro hv)] at h ⊢
    by_cases hdev : (devPop dev).1 = FINGERPRINT_OK
    · rw [if_pos hdev]
      exact ⟨hv.1, hv.2, rfl⟩
    · rw [if_neg hdev] at h
      simp at h
      rw [convertAdafruitError_eq_ok] at h
      exact absurd h hdev
  · rw [if_pos hv] at h
    simp at h

lemma deleteTemplate_fail_state (s : UFState) (id : Nat) (dev : List Nat)
    (h : (deleteTemplate s id dev).1 ≠ UF_OK) :
    (deleteTemplate s id dev).2.1 = s := by
  simp only [deleteTemplate] at h ⊢
  by_cases hinit : s.initialized = false
  · rw [if_pos hinit]
  · rw [if_neg hinit] at h ⊢
    by_cases hv : validateID s id
    · rw [if_neg (not_not_intro hv)] at h ⊢
      by_cases hdev : (devPop dev).1 = FINGERPRINT_OK
      · rw [if_pos hdev] at h
        simp at h
      · rw [if_neg hdev]
    · rw [if_pos hv]

lemma clearDatabase_state (s : UFState) (dev : List Nat)
    (hinit : s.initialized = true) :
    (clearDatabase s dev).2.1 =
      { s with slotOccupancy := List.replicate s.capacity false
               enrolledCount := 0
               databaseScanned := false } := by
  simp only [clearDatabase]
  rw [if_neg (by rw [hinit]; simp)]

/-! ### Preservation of well-formedness -/

lemma WF_enrollApply (s : UFState) (id : Nat) (hwf : WF s)
    (h1 : 1 ≤ id) (h2 : id ≤ s.capacity)
    (hdup : ¬(s.databaseScanned = true ∧ s.slotOccupancy.getD (id - 1) false = true)) :
    WF (enrollApply s id) := by
  obtain ⟨hlen, hcap, hcount, hun⟩ := hwf
  have hidx : id - 1 < s.slotOccupancy.length := by omega
  have hfalse : s.slotOccupancy.getD (id - 1) false = false := by
    cases hscan : s.databaseScanned with
    | false => exact countTrue_zero_getD _ (hun hscan) _
    | true =>
      cases hgd : s.slotOccupancy.getD (id - 1) false with
      | false => rfl
      | true => exact absurd ⟨hscan, hgd⟩ hdup
  have hset : countTrue (s.slotOccupancy.set (id - 1) true) =
      countTrue s.slotOccupancy + 1 :=
    countTrue_set_true _ _ hidx hfalse
  have hle : countTrue s.slotOccupancy + 1 ≤ s.capacity := by
    have hx := countTrue_le_length (s.slotOccupancy.set (id - 1) true)
    rw [hset, List.length_set, hlen] at hx
    exact hx
  unfold enrollApply updateSlotOccupancy
  rw [if_pos ⟨h1, h2⟩]
  refine ⟨by simp [hlen], hcap, ?_, by simp⟩
  simp only [hcount, hset]
  exact Nat.mod_eq_of_lt (by omega)

lemma WF_deleteApply (s : UFState) (id : Nat) (hwf : WF s)
    (hocc : isSlotOccupied s id = true) :
    WF (deleteApply s id) := by
  obtain ⟨hlen, hcap, hcount, hun⟩ := hwf
  unfold isSlotOccupied at hocc
  by_cases hcond : s.databaseScanned = false ∨ id < 1 ∨ id > s.capacity
  · rw [if_pos hcond] at hocc
    exact absurd hocc (by decide)
  rw [if_neg hcond] at hocc
  push_neg at hcond
  obtain ⟨hscan, hlow, hhigh⟩ := hcond
  have hidx : id - 1 < s.slotOccupancy.length := by omega
  have hset : countTrue s.slotOccupancy =
      countTrue (s.slotOccupancy.set (id - 1) false) + 1 :=
    countTrue_set_false _ _ hidx hocc
  unfold deleteApply updateSlotOccupancy
  rw [if_pos ⟨by omega, by omega⟩]
  refine ⟨by simp [hlen], hcap, ?_, by simp⟩
  simp only [hcount, hset]
  simp

lemma WF_goodStep (s : UFState) (op : Op) (hwf : WF s)
    (h : goodStep s op = true) : WF (applyOp s op).2 := by
  unfold goodStep at h
  rw [Bool.and_eq_true] at h
  obtain ⟨hok, hside⟩ := h
  rw [decide_eq_true_eq] at hok
  cases op with
  | enrollOp id0 n dev =>
    simp only [applyOp] at hok ⊢
    obtain ⟨id, h1, h2, hdup, hstate⟩ := enroll_ok_cases s id0 n dev hok
    rw [hstate]
    exact WF_enrollApply s id hwf h1 h2 hdup
  | deleteOp id dev =>
    simp only [applyOp] at hok hside ⊢
    obtain ⟨h1, h2, hstate⟩ := deleteTemplate_ok_cases s id dev hok
    rw [hstate]
    exact WF_deleteApply s id hwf hside
  | clearOp dev =>
    simp only [applyOp] at hok ⊢
    have hinit : s.initialized = true := by
      cases hb : s.initialized with
      | false =>
        unfold clearDatabase at hok
        rw [if_pos hb] at hok
        simp at hok
      | true => rfl
    rw [clearDatabase_state s dev hinit]
    refine ⟨by simp, hwf.2.1, by simp [countTrue_replicate_false], ?_⟩
    intro _
    rw [countTrue_replicate_false]

/-! ### Concrete one-slot states used by witnesses and counterexamples -/

/-- A scanned, initialized one-slot facade state whose single slot is
occupied. -/
def occupiedOneState : UFState :=
  { sensorType := AS608
    capacity := 1
    enrolledCount := 1
    initialized := true
    databaseScanned := true
    slotOccupancy := [true] }

/-- A scanned, initialized one-slot facade state whose single slot is
empty. -/
def emptyOneState : UFState :=
  { sensorType := AS608
    capacity := 1
    enrolledCount := 0
    initialized := true
    databaseScanned := true
    slotOccupancy := [false] }

/-! ### Claim C1 -/

set_option maxRecDepth 40000 in
/-- C1 (counterexample): starting from the state a successful
`begin()` leaves, the two-step trace `enroll(1)` (all device steps
succeed) then `deleteTemplate(2)` (device reports success for the
cache-empty slot 2) has every operation report success, yet afterwards
`_enrolledCount = 0` while exactly one slot id in `[1, capacity]` has
`isSlotOccupied = true`.  This refutes the claimed invariant as
stated. -/
theorem c1_counterexample :
    (enroll postBeginState 1 2 [0, 0, 0, 0, 0, 0]).1 = UF_OK ∧
    (deleteTemplate (enroll postBeginState 1 2 [0, 0, 0, 0, 0, 0]).2.1 2 [0]).1
      = UF_OK ∧
    (deleteTemplate (enroll postBeginState 1 2 [0, 0, 0, 0, 0, 0]).2.1 2
        [0]).2.1.enrolledCount = 0 ∧
    countOccupied
      (deleteTemplate (enroll postBeginState 1 2 [0, 0, 0, 0, 0, 0]).2.1 2
        [0]).2.1 = 1 := by
  decide

/-- C1 (amended): for every well-formed starting state and every
sequence of `enroll`/`deleteTemplate`/`clearDatabase` operations in
which each operation reports success AND every successful delete
targets a slot the cache reports occupied, after every step the
internal `_enrolledCount` equals the number of slot ids in
`[1, capacity]` for which `isSlotOccupied` returns true, and (while
the cache is marked scanned) `getDatabaseStats` reports exactly that
number as `occupiedSlots`. -/
theorem c1_cache_consistency_amended (s : UFState) (ops : List Op)
    (hwf : WF s) (hgood : goodTrace s ops = true) :
    ∀ s' ∈ statesAlong s ops,
      s'.enrolledCount = countOccupied s' ∧
      (∀ dev, s'.databaseScanned = true →
        (getDatabaseStats s' dev).1.occupiedSlots = countOccupied s') := by
  induction ops generalizing s with
  | nil =>
    intro s' hs'
    simp [statesAlong] at hs'
  | cons op rest ih =>
    unfold goodTrace at hgood
    rw [Bool.and_eq_true] at hgood
    obtain ⟨hstep, hrest⟩ := hgood
    have hwf' : WF (applyOp s op).2 := WF_goodStep s op hwf hstep
    intro s' hs'
    unfold statesAlong at hs'
    rw [List.mem_cons] at hs'
    rcases hs' with h1 | h2
    · subst h1
      refine ⟨WF_count_eq _ hwf', ?_⟩
      intro dev hscan
      unfold getDatabaseStats
      rw [if_neg (by rw [hscan]; simp)]
      exact WF_count_eq _ hwf'
    · exact ih _ hwf' hrest s' h2

/-- C1 amended, witnessed at a concrete instance: the one-element
trace that successfully enrolls slot 1 of an empty one-slot cache. -/
theorem c1_cache_consistency_amended_witness :
    WF emptyOneState ∧
    goodTrace emptyOneState [Op.enrollOp 1 2 [0, 0, 0, 0, 0, 0]] = true ∧
    ∀ s' ∈ statesAlong emptyOneState [Op.enrollOp 1 2 [0, 0, 0, 0, 0, 0]],
      s'.enrolledCount = countOccupied s' ∧
      (∀ dev, s'.databaseScanned = true →
        (getDatabaseStats s' dev).1.occupiedSlots = countOccupied s') :=
  ⟨by decide, by decide,
   c1_cache_consistency_amended emptyOneState [Op.enrollOp 1 2 [0, 0, 0, 0, 0, 0]]
     (by decide) (by decide)⟩

/-! ### Claim C2 -/

/-- C2: contrary to the claim, `begin()` never populates the
occupancy cache.  The `scanDatabase()` call inside `begin` is issued
while `_initialized` is still false, so it returns `-1` without
scanning: whatever the environment (driver result, password answer,
detection probe, scan responses), the state `begin` returns — also
when it returns true — still has `_databaseScanned = false` and
`_enrolledCount = 0`.  This is evidence for the code bug: the source's
own `// Scan database` step is dead. -/
theorem c2_begin_leaves_database_unscanned (t : UF_SensorType) (e : BeginEnv) :
    ((begin (mkUniversalFingerprint t) e).2).databaseScanned = false ∧
    ((begin (mkUniversalFingerprint t) e).2).enrolledCount = 0 := by
  unfold begin
  by_cases h1 : e.fingerBeginOk = false
  · rw [if_pos h1]
    exact ⟨rfl, rfl⟩
  rw [if_neg h1]
  by_cases h2 : e.verifyPasswordCode ≠ FINGERPRINT_OK
  · rw [if_pos h2]
    exact ⟨rfl, rfl⟩
  rw [if_neg h2]
  exact ⟨rfl, rfl⟩

/-! ### Claim C3 -/

/-- C3: capacity detection probes the catalog in strictly descending
capacity order 1000, 300, 256, 200, 162, each probe being the
profile's largest slot index (equal to that profile's `SENSOR_DB`
capacity), and selects the first profile whose largest index is
addressable; in particular, for a probe accepting exactly the indices
`≤ 1000`, `detect` selects the R307 profile with capacity 1000, never
a smaller cataloged profile. -/
theorem c3_detection_descending_first_match :
    List.Chain' (fun a b : UF_SensorType × Nat => b.2 < a.2) detectionCatalog ∧
    detectionCatalog.map (fun p => p.2) = [1000, 300, 256, 200, 162] ∧
    detectionCatalog.map (fun p => dbCapacityFor p.1) =
      detectionCatalog.map (fun p => p.2) ∧
    (∀ probe : Nat → Bool, detectByCapacity probe = catalogFirstMatch probe) ∧
    (∀ param : Nat, detect param (fun id => decide (id ≤ 1000)) = (R307, 1000)) := by
  refine ⟨?_, by decide, by decide, ?_, ?_⟩
  · unfold detectionCatalog
    simp [List.chain'_cons]
  · intro probe
    unfold detectByCapacity catalogFirstMatch detectionCatalog
    cases h1 : probe 1000 <;> cases h2 : probe 300 <;> cases h3 : probe 256 <;>
      cases h4 : probe 200 <;> cases h5 : probe 162 <;>
      simp [List.find?, h1, h2, h3, h4, h5]
  · intro param
    unfold detect detectByParameters detectByCapacity detectedCapacityFor
    simp

/-! ### Claim C4 -/

/-- C4 (counterexample): there is no `Unknown` outcome: no outcome
value is simultaneously (a) never assigned to a code of the mapping
table and (b) assigned to every code outside the table.  Indeed the
fallback outcome for the unmapped code 255 is `UF_ERROR_COMM`, the
very outcome the mapped code `FINGERPRINT_PACKETRECIEVEERR` gets. -/
theorem c4_counterexample :
    ¬ ∃ u : UF_ErrorCode,
        (∀ c ∈ knownAdafruitCodes, convertAdafruitError c ≠ u) ∧
        (∀ c : Nat, c ∉ knownAdafruitCodes → convertAdafruitError c = u) := by
  rintro ⟨u, hmapped, hunmapped⟩
  have hu : convertAdafruitError 255 = u := hunmapped 255 (by decide)
  have hcomm : u = UF_ERROR_COMM := by
    rw [← hu]
    decide
  exact hmapped FINGERPRINT_PACKETRECIEVEERR (by decide) (by rw [hcomm]; decide)

/-- C4 (amended): the result-code normalization is a pure total
function on the vendor code's value space, and every vendor code not
present in the known mapping table resolves to the communication-error
outcome `UF_ERROR_COMM` (there is no separate `Unknown` outcome)
rather than failing. -/
theorem c4_unmapped_code_resolves_comm (c : Nat) (h : c ∉ knownAdafruitCodes) :
    convertAdafruitError c = UF_ERROR_COMM :=
  convertAdafruitError_unknown c h

/-- C4 amended, witnessed at the unmapped code 255. -/
theorem c4_unmapped_code_resolves_comm_witness :
    (255 : Nat) ∉ knownAdafruitCodes ∧ convertAdafruitError 255 = UF_ERROR_COMM :=
  ⟨by decide, c4_unmapped_code_resolves_comm 255 (by decide)⟩

/-! ### Claim C5 -/

/-- The loop of `findEmptySlot` returns the first id of the ascending
id range whose occupancy entry is false, or the sentinel 0. -/
lemma findFromAux_eq (occ : List Bool) : ∀ (n i : Nat),
    findFromAux occ i n =
      (match (slotIdsFrom (i + 1) n).find?
          (fun id => !(occ.getD (id - 1) false)) with
       | some id => id
       | none => 0) := by
  intro n
  induction n with
  | zero => intro i; rfl
  | succ n ih =>
    intro i
    show (if occ.getD i false = false then i + 1 else findFromAux occ (i + 1) n) = _
    rw [show slotIdsFrom (i + 1) (n + 1) = (i + 1) :: slotIdsFrom (i + 2) n from rfl]
    cases hocc : occ.getD i false with
    | false =>
      rw [if_pos rfl]
      rw [List.getD_eq_getElem?_getD] at hocc
      simp [List.find?_cons, Nat.add_sub_cancel, hocc]
    | true =>
      rw [if_neg (by simp)]
      rw [ih (i + 1)]
      rw [List.getD_eq_getElem?_getD] at hocc
      simp [List.find?_cons, Nat.add_sub_cancel, hocc]

/-- C5 (counterexample): in the state a successful `begin()` leaves
(occupancy allocated all-empty but `_databaseScanned` still false),
the claim's own description demands `findEmptySlot(1) = 1` — slot 1 is
in range and its occupancy entry is false — yet the code returns the
sentinel 0 because the database has not been scanned. -/
theorem c5_counterexample :
    claimFindEmptySlot postBeginState 1 = 1 ∧
    findEmptySlot postBeginState 1 = 0 := by
  constructor
  · decide
  · decide

/-- C5 (amended): for every cache state and starting index `k`,
`findEmptySlot(k)` returns the smallest slot id `≥ k` in
`[1, capacity]` whose occupancy entry is false, and returns 0 when the
database has not been scanned, when `k` is outside `[1, capacity]`, or
when no empty slot exists at or after `k` — stated as equality with
the spec-side function `specFindEmptySlot`. -/
theorem c5_findEmptySlot_spec (s : UFState) (k : Nat) :
    findEmptySlot s k = specFindEmptySlot s k := by
  unfold findEmptySlot specFindEmptySlot
  by_cases h : s.databaseScanned = false ∨ k < 1 ∨ k > s.capacity
  · rw [if_pos h, if_pos h]
  · rw [if_neg h, if_neg h]
    push_neg at h
    obtain ⟨_, hk1, hk2⟩ := h
    rw [findFromAux_eq]
    have h1 : k - 1 + 1 = k := by omega
    have h2 : s.capacity - (k - 1) = s.capacity + 1 - k := by omega
    rw [h1, h2]

/-! ### Claim C6 -/

/-- C6 (counterexample): `clearDatabase` on a one-slot state whose
slot is occupied, with the device answering `FINGERPRINT_DELETEFAIL`,
does not report success — yet the cache state changes (occupancy
zeroed, count zeroed, scanned flag cleared).  This refutes the
claim's clause that a mutating operation that does not succeed leaves
the cache state unchanged. -/
theorem c6_counterexample :
    (clearDatabase occupiedOneState [FINGERPRINT_DELETEFAIL]).1 ≠ UF_OK ∧
    (clearDatabase occupiedOneState [FINGERPRINT_DELETEFAIL]).2.1 ≠
      occupiedOneState := by
  decide

/-- C6 (amended): an unsuccessful `enroll` or `deleteTemplate` leaves
the cache state entirely unchanged; a successful `enroll` or
`deleteTemplate` changes the occupancy of no slot other than the one
it targets; and `clearDatabase` (on an initialized facade) resets the
cache — all slots empty, count zero, scanned flag cleared — regardless
of whether it reports success. -/
theorem c6_cache_update_amended :
    (∀ s id0 n dev, (enroll s id0 n dev).1 ≠ UF_OK →
      (enroll s id0 n dev).2.1 = s) ∧
    (∀ s id dev, (deleteTemplate s id dev).1 ≠ UF_OK →
      (deleteTemplate s id dev).2.1 = s) ∧
    (∀ s id0 n dev, (enroll s id0 n dev).1 = UF_OK →
      ∃ id, 1 ≤ id ∧ id ≤ s.capacity ∧
        ∀ j, j ≠ id - 1 →
          (enroll s id0 n dev).2.1.slotOccupancy.getD j false =
            s.slotOccupancy.getD j false) ∧
    (∀ s id dev, (deleteTemplate s id dev).1 = UF_OK →
      1 ≤ id ∧ id ≤ s.capacity ∧
        ∀ j, j ≠ id - 1 →
          (deleteTemplate s id dev).2.1.slotOccupancy.getD j false =
            s.slotOccupancy.getD j false) ∧
    (∀ s dev, s.initialized = true →
      (clearDatabase s dev).2.1.slotOccupancy = List.replicate s.capacity false ∧
      (clearDatabase s dev).2.1.enrolledCount = 0 ∧
      (clearDatabase s dev).2.1.databaseScanned = false) := by
  refine ⟨?_, ?_, ?_, ?_, ?_⟩
  · intro s id0 n dev h
    exact enroll_fail_state s id0 n dev h
  · intro s id dev h
    exact deleteTemplate_fail_state s id dev h
  · intro s id0 n dev h
    obtain ⟨id, h1, h2, _, hstate⟩ := enroll_ok_cases s id0 n dev h
    refine ⟨id, h1, h2, ?_⟩
    intro j hj
    rw [hstate]
    unfold enrollApply updateSlotOccupancy
    rw [if_pos ⟨h1, h2⟩]
    exact getD_set_ne _ _ _ _ hj
  · intro s id dev h
    obtain ⟨h1, h2, hstate⟩ := deleteTemplate_ok_cases s id dev h
    refine ⟨h1, h2, ?_⟩
    intro j hj
    rw [hstate]
    unfold deleteApply updateSlotOccupancy
    rw [if_pos ⟨h1, h2⟩]
    exact getD_set_ne _ _ _ _ hj
  · intro s dev hinit
    rw [clearDatabase_state s dev hinit]
    exact ⟨rfl, rfl, rfl⟩

/-- C6 amended, witnessed: a rejected enroll (occupied slot) and a
failed delete leave the state unchanged; a successful delete leaves
every other slot's entry unchanged; clear zeroes the count. -/
theorem c6_cache_update_amended_witness :
    (enroll occupiedOneState 1 2 []).2.1 = occupiedOneState ∧
    (deleteTemplate occupiedOneState 1 [FINGERPRINT_DELETEFAIL]).2.1 =
      occupiedOneState ∧
    (∃ id, 1 ≤ id ∧ id ≤ emptyOneState.capacity ∧
      ∀ j, j ≠ id - 1 →
        (enroll emptyOneState 1 2 [0, 0, 0, 0, 0, 0]).2.1.slotOccupancy.getD j false =
          emptyOneState.slotOccupancy.getD j false) ∧
    (∀ j, j ≠ 1 - 1 →
      (deleteTemplate occupiedOneState 1 [0]).2.1.slotOccupancy.getD j false =
        occupiedOneState.slotOccupancy.getD j false) ∧
    (clearDatabase occupiedOneState []).2.1.enrolledCount = 0 :=
  ⟨c6_cache_update_amended.1 occupiedOneState 1 2 [] (by decide),
   c6_cache_update_amended.2.1 occupiedOneState 1 [FINGERPRINT_DELETEFAIL] (by decide),
   c6_cache_update_amended.2.2.1 emptyOneState 1 2 [0, 0, 0, 0, 0, 0] (by decide),
   (c6_cache_update_amended.2.2.2.1 occupiedOneState 1 [0] (by decide)).2.2,
   (c6_cache_update_amended.2.2.2.2 occupiedOneState [] rfl).2.1⟩

/-! ### Claim C7 -/

/-- C7: on an initialized facade, if the cache reports slot `id`
occupied, then `enroll(id)` returns `UF_ERROR_DUPLICATE_ID` with the
state unchanged and the device response stream untouched — the
rejection is purely local, no device command is issued, and neither
the occupied count nor any occupancy entry changes. -/
theorem c7_enroll_occupied_rejected_locally (s : UFState) (id n : Nat)
    (dev : List Nat) (hinit : s.initialized = true)
    (hocc : isSlotOccupied s id = true) :
    enroll s id n dev = (UF_ERROR_DUPLICATE_ID, s, dev) := by
  unfold isSlotOccupied at hocc
  by_cases hcond : s.databaseScanned = false ∨ id < 1 ∨ id > s.capacity
  · rw [if_pos hcond] at hocc
    exact absurd hocc (by decide)
  rw [if_neg hcond] at hocc
  push_neg at hcond
  obtain ⟨hscan, h1, h2⟩ := hcond
  simp only [enroll]
  rw [if_neg (show ¬(s.initialized = false) by rw [hinit]; simp)]
  rw [if_neg (show ¬(id = 0) by omega)]
  rw [if_neg (show ¬(id = 0) by omega)]
  rw [if_neg (not_not_intro (show validateID s id from ⟨by omega, by omega⟩))]
  rw [if_pos ⟨by simpa using hscan, hocc⟩]

/-- C7, witnessed on the occupied one-slot state. -/
theorem c7_enroll_occupied_rejected_locally_witness :
    enroll occupiedOneState 1 2 [0, 0] =
      (UF_ERROR_DUPLICATE_ID, occupiedOneState, [0, 0]) :=
  c7_enroll_occupied_rejected_locally occupiedOneState 1 2 [0, 0] rfl (by decide)

/-! ### Claim C8 -/

/-- C8 (counterexample): `enroll` with the out-of-bounds scan count 0,
on an initialized scanned state with slot 1 empty and an all-OK
device, returns `UF_OK` — not a validation-failure outcome — and
consumes device responses, i.e. device interaction does occur.  This
refutes the claim that an out-of-bounds scan count is rejected locally
before any device call. -/
theorem c8_counterexample :
    (enroll emptyOneState 1 0 [0, 0, 0, 0, 0, 0]).1 = UF_OK ∧
    (enroll emptyOneState 1 0 [0, 0, 0, 0, 0, 0]).2.2 ≠ [0, 0, 0, 0, 0, 0] ∧
    (enroll emptyOneState 1 0 [0, 0, 0, 0, 0, 0]).1 ≠ UF_ERROR_INVALID_PARAM := by
  decide

/-- C8 (amended): an out-of-bounds scan count (`numScans < 1` or
`numScans > 4`) is not rejected: it is silently replaced by the
default of 2, and the call behaves exactly like a call with scan
count 2 (in every state, for every device response stream). -/
theorem c8_scan_count_clamped (s : UFState) (id0 numScans : Nat)
    (dev : List Nat) (h : numScans < 1 ∨ numScans > 4) :
    enroll s id0 numScans dev = enroll s id0 2 dev := rfl

/-- C8 amended, witnessed at scan count 0. -/
theorem c8_scan_count_clamped_witness :
    ((0 : Nat) < 1 ∨ (0 : Nat) > 4) ∧
    enroll emptyOneState 1 0 [0, 0, 0, 0, 0, 0] =
      enroll emptyOneState 1 2 [0, 0, 0, 0, 0, 0] :=
  ⟨Or.inl (by decide),
   c8_scan_count_clamped emptyOneState 1 0 [0, 0, 0, 0, 0, 0] (Or.inl (by decide))⟩

/-! ### Claim C9 -/

/-- C9: `isSlotOccupied` returns false at slot 0 and at slot
`capacity + 1` (for every state, hence for every profile's capacity),
and more generally returns false for every id outside `[1, capacity]`
and whenever the database has not been scanned — always a value,
never an error. -/
theorem c9_isSlotOccupied_boundary (s : UFState) (id : Nat) :
    isSlotOccupied s 0 = false ∧
    isSlotOccupied s (s.capacity + 1) = false ∧
    ((id < 1 ∨ id > s.capacity) → isSlotOccupied s id = false) ∧
    (s.databaseScanned = false → isSlotOccupied s id = false) := by
  refine ⟨?_, ?_, ?_, ?_⟩
  · unfold isSlotOccupied
    rw [if_pos (Or.inr (Or.inl (by omega)))]
  · unfold isSlotOccupied
    rw [if_pos (Or.inr (Or.inr (by omega)))]
  · intro h
    unfold isSlotOccupied
    rcases h with h | h
    · rw [if_pos (Or.inr (Or.inl h))]
    · rw [if_pos (Or.inr (Or.inr h))]
  · intro h
    unfold isSlotOccupied
    rw [if_pos (Or.inl h)]

/-- C9, witnessed: boundary ids on the occupied one-slot state, an
out-of-range id, and a query on the unscanned post-`begin` state. -/
theorem c9_isSlotOccupied_boundary_witness :
    isSlotOccupied occupiedOneState 0 = false ∧
    isSlotOccupied occupiedOneState (occupiedOneState.capacity + 1) = false ∧
    isSlotOccupied occupiedOneState 5 = false ∧
    isSlotOccupied postBeginState 1 = false :=
  ⟨(c9_isSlotOccupied_boundary occupiedOneState 5).1,
   (c9_isSlotOccupied_boundary occupiedOneState 5).2.1,
   (c9_isSlotOccupied_boundary occupiedOneState 5).2.2.1 (Or.inr (by decide)),
   (c9_isSlotOccupied_boundary postBeginState 1).2.2.2 (by decide)⟩

/-! ### Claim C10 -/

/-- C10: on an initialized facade, `isFingerPresent` returns true
exactly when the device's `getImage` call answers `FINGERPRINT_OK` or
`FINGERPRINT_NOFINGER`; in particular it reports a finger present
even when the device explicitly answers that no finger is
detected. -/
theorem c10_isFingerPresent_ok_or_nofinger (s : UFState) (r : Nat)
    (rest : List Nat) (hinit : s.initialized = true) :
    (isFingerPresent s (r :: rest)).1 =
      (decide (r = FINGERPRINT_OK) || decide (r = FINGERPRINT_NOFINGER)) ∧
    (isFingerPresent s (FINGERPRINT_NOFINGER :: rest)).1 = true := by
  constructor
  · unfold isFingerPresent
    rw [if_neg (show ¬(s.initialized = false) by rw [hinit]; simp)]
    rfl
  · unfold isFingerPresent
    rw [if_neg (show ¬(s.initialized = false) by rw [hinit]; simp)]
    rfl

/-- C10, witnessed: the facade calls a finger present when the device
answers `FINGERPRINT_NOFINGER`. -/
theorem c10_isFingerPresent_ok_or_nofinger_witness :
    (isFingerPresent emptyOneState [FINGERPRINT_NOFINGER]).1 = true :=
  (c10_isFingerPresent_ok_or_nofinger emptyOneState FINGERPRINT_NOFINGER [] rfl).2

end UF
